import Mathlib

/-!
Shallow embedding of the orography-factor playground.

Two source paths are embedded:

* the complex path (`computeOrographyFactorComplex`, `destinationPoint`,
  `detectLambertCrs`, the `run` reference-height guard) — JavaScript numbers
  are modelled as real numbers; a value that JavaScript would hold as `null`
  or a non-finite number (`NaN`) is modelled as `Option.none`;
* the legacy path (`calculateTotalElevation` of `script.js`), which reads
  nine elevations and a tower height, rounds the factor up to two decimals
  and classifies it.

The JavaScript `%` operator (sign of the dividend, truncated quotient) is
modelled by `jsRem`; `Math.atan2` is modelled by its documented case
analysis (`atan2`); `Math.ceil` by `Int.ceil`.
-/

/-- Geographic point as returned by `destinationPoint` in the source:
a record with `lat` and `lon` fields, degrees. -/
structure GeoPoint where
  lat : ℝ
  lon : ℝ

/-- Sample point as pushed onto `points` in `computeOrographyFactorComplex`:
a label, a location, a distance in metres and an optional bearing
(`null` for the center). -/
structure SamplePoint where
  label : String
  lat : ℝ
  lon : ℝ
  distanceM : ℝ
  bearingDeg : Option ℝ

/-- JavaScript remainder `a % b`: `a - b * trunc (a / b)` — the quotient is
truncated toward zero, so the result carries the sign of the dividend. -/
noncomputable def jsRem (a b : ℝ) : ℝ :=
  if 0 ≤ a / b then a - b * (⌊a / b⌋ : ℝ) else a - b * (⌈a / b⌉ : ℝ)

/-- Model of `Math.atan2(y, x)` by its documented case analysis
(range `(-pi, pi]`; the signed-zero distinctions of IEEE numbers collapse,
`atan2 0 0 = 0` as for `+0, +0`). -/
noncomputable def atan2 (y x : ℝ) : ℝ :=
  if 0 < x then Real.arctan (y / x)
  else if x < 0 then
    (if 0 ≤ y then Real.arctan (y / x) + Real.pi
     else Real.arctan (y / x) - Real.pi)
  else
    (if 0 < y then Real.pi / 2
     else if y < 0 then -(Real.pi / 2)
     else 0)

/-- Degree-to-radian conversion `degToRad` from the source. -/
noncomputable def degToRad (d : ℝ) : ℝ := d * Real.pi / 180

/-- Radian-to-degree conversion `radToDeg` from the source. -/
noncomputable def radToDeg (r : ℝ) : ℝ := r * 180 / Real.pi

/-- Function `destinationPoint(lat, lon, distanceM, bearingDeg)` from the source:
great-circle destination on a sphere of radius 6371e3 m, with the output
longitude normalized by `((lon2 + 540) % 360) - 180`. -/
noncomputable def destinationPoint (lat lon distanceM bearingDeg : ℝ) : GeoPoint :=
  let R : ℝ := 6371e3
  let phi1 := degToRad lat
  let lam1 := degToRad lon
  let theta := degToRad bearingDeg
  let delta := distanceM / R
  let sinphi2 := Real.sin phi1 * Real.cos delta + Real.cos phi1 * Real.sin delta * Real.cos theta
  let phi2 := Real.arcsin sinphi2
  let y := Real.sin theta * Real.sin delta * Real.cos phi1
  let x := Real.cos delta - Real.sin phi1 * Real.sin phi2
  let lam2 := lam1 + atan2 y x
  let lon2 := jsRem (radToDeg lam2 + 540) 360 - 180
  ⟨radToDeg phi2, lon2⟩

/-- The `bearings` array of `computeOrographyFactorComplex`. -/
def bearings : List (String × ℝ) := [("N", 0), ("E", 90), ("S", 180), ("W", 270)]

/-- The `distances` array of `computeOrographyFactorComplex`. -/
def distances : List ℝ := [500, 1000]

/-- The point-list construction of `computeOrographyFactorComplex`
(source lines 277-299): the center first, then for each bearing and each
distance a destination point. -/
noncomputable def buildPoints (lat lon : ℝ) : List SamplePoint :=
  ⟨"CENTER", lat, lon, 0, Option.none⟩ ::
    bearings.flatMap (fun b =>
      distances.map (fun d =>
        let p := destinationPoint lat lon d b.2
        ⟨b.1, p.lat, p.lon, d, Option.some b.2⟩))

/-- Numeric core of `computeOrographyFactorComplex` (source lines 310-321):
sum of the ring samples, `Am`, reference height handling, attenuation and
the floored factor `c0`. A non-finite `zRefMeters` is `Option.none`. -/
structure OrographyCore where
  c0 : ℝ
  Ac : ℝ
  Am : ℝ

/-- Numeric core computation extracted verbatim from
`computeOrographyFactorComplex` lines 310-321. -/
noncomputable def computeCore (Ac : ℝ) (sampleElevs : List ℝ) (zRefMeters : Option ℝ) :
    OrographyCore :=
  let sumSamples := sampleElevs.foldl (fun acc e => acc + e) 0
  let Am := (2 * Ac + sumSamples) / 10
  let z := max 0 (zRefMeters.getD 10)
  let attenuation := Real.exp (-0.014 * max 0 (z - 10))
  let c0 := 1 + 0.004 * (Ac - Am) * attenuation
  let c0f := if c0 < 1 then 1 else c0
  ⟨c0f, Ac, Am⟩

/-- Result record returned by `computeOrographyFactorComplex`. -/
structure OrographyResult where
  c0 : ℝ
  Ac : ℝ
  Am : ℝ
  points : List SamplePoint
  elevations : List (Option ℝ)

/-- Function `computeOrographyFactorComplex(lon, lat, zRefMeters)` with the elevation
gateway response passed in as data: an entry is `Option.none` when the
service value was non-finite (`fetchElevations` maps those to `null`).
The length check is the one `fetchElevations` performs against the request;
a failed check or a missing center or ring elevation raises the error
message of the source. -/
noncomputable def computeOrographyFactorComplex (lon lat : ℝ) (zRefMeters : Option ℝ)
    (response : List (Option ℝ)) : Except String OrographyResult :=
  let points := buildPoints lat lon
  if response.length = points.length then
    match response with
    | Option.some Ac :: sampleElevs =>
      if sampleElevs.any Option.isNone then
        Except.error "Could not determine all sampled elevations."
      else
        let core := computeCore Ac (sampleElevs.filterMap id) zRefMeters
        Except.ok ⟨core.c0, core.Ac, core.Am, points, response⟩
    | _ => Except.error "Could not determine site elevation."
  else
    Except.error "Unexpected elevation response."

/-- The reference-height guard at the top of `run()` (source lines 354-357):
`toNumber` yields `null` (`Option.none`) for a non-numeric input, and the
guard throws when the value is `null` or negative. -/
noncomputable def runZRefGuard (zRef : Option ℝ) : Except String ℝ :=
  match zRef with
  | Option.none => Except.error "Reference height z must be a non-negative number."
  | Option.some z =>
    if z < 0 then Except.error "Reference height z must be a non-negative number."
    else Except.ok z

/-- Function `detectLambertCrs(northing)` from the source: `northing` is `null`
(`Option.none`) when `toNumber` failed. -/
noncomputable def detectLambertCrs (northing : Option ℝ) : String :=
  match northing with
  | Option.some n => if n > 2000000 then "EPSG:31370" else "EPSG:3812"
  | Option.none => "EPSG:3812"

/-- Advisory label standing for the four distinct comment strings written by
the `if` chain at the end of `calculateTotalElevation` in `script.js`
(`FLAT` = "Site is considered flat...", `STEEP` = "... detailed analysis is
required ...", `TRANSITIONAL` = "... individual stability study.",
`NONE` = the empty string of the final `else`). -/
inductive Advisory where
  | FLAT
  | STEEP
  | TRANSITIONAL
  | NONE
  deriving DecidableEq, Repr

/-- The classification `if` chain of `calculateTotalElevation`
(script.js lines 414-428), applied to the already-rounded factor. -/
noncomputable def classify (f : ℝ) : Advisory :=
  if f ≤ 1.0 then Advisory.FLAT
  else if f > 1.15 then Advisory.STEEP
  else if f > 1.0 ∧ f ≤ 1.15 then Advisory.TRANSITIONAL
  else Advisory.NONE

/-- The warning condition of `run()` in the complex path
(source lines 422-428): the steep-terrain note is shown iff `c0 > 1.15`. -/
noncomputable def complexWarning (c0 : ℝ) : Bool :=
  if c0 > 1.15 then true else false

/-- Result of the legacy `calculateTotalElevation`: the displayed factor and
the advisory comment. -/
structure LegacyResult where
  factor : ℝ
  comment : Advisory

/-- Function `calculateTotalElevation` from `script.js` (lines 367-431): each of the
nine parsed elevations and the tower height is `Option.none` when
`parseFloat` produced a non-finite value. If any elevation is non-finite the
function returns early with no output (`Option.none`); the tower height is
never validated — a non-finite height fails the `towerHeight > 10` test and
lands in the `else` branch with attenuation `exp(-0.014*(10-10))`. -/
noncomputable def calculateTotalElevation
    (elevation eN05 eN1 eS05 eS1 eE05 eE1 eW05 eW1 : Option ℝ)
    (towerHeight : Option ℝ) : Option LegacyResult :=
  match elevation, eN05, eN1, eS05, eS1, eE05, eE1, eW05, eW1 with
  | Option.some elev, Option.some n05, Option.some n1, Option.some s05, Option.some s1,
    Option.some e05, Option.some e1, Option.some w05, Option.some w1 =>
    let sum1km := n1 + s1 + e1 + w1
    let sum05km := n05 + s05 + e05 + w05
    let Am := 1 / 10 * (2 * elev + sum1km + sum05km)
    let DeltaAc := elev - Am
    let orographyFactorRaw : ℝ :=
      match towerHeight with
      | Option.some th =>
        if th > 10 then 1 + 0.004 * DeltaAc * Real.exp (-0.014 * (th - 10))
        else 1 + 0.004 * DeltaAc * Real.exp (-0.014 * (10 - 10))
      | Option.none => 1 + 0.004 * DeltaAc * Real.exp (-0.014 * (10 - 10))
    let orographyFactor := (⌈orographyFactorRaw * 100⌉ : ℝ) / 100
    Option.some ⟨orographyFactor, classify orographyFactor⟩
  | _, _, _, _, _, _, _, _, _ => Option.none

example : detectLambertCrs (Option.some 5400000) = "EPSG:31370" := by
  simp [detectLambertCrs]
  norm_num

example : detectLambertCrs (Option.some 660000) = "EPSG:3812" := by
  simp [detectLambertCrs]
  norm_num

/-- Length of the sample plan: one center plus four bearings times two
distances. -/
theorem buildPoints_length (lat lon : ℝ) : (buildPoints lat lon).length = 9 := by
  simp [buildPoints, bearings, distances]

/-- The floored factor of the numeric core equals `max 1` of the raw
factor. -/
theorem computeCore_c0_eq (Ac : ℝ) (s : List ℝ) (z : Option ℝ) :
    (computeCore Ac s z).c0 =
      max 1 (1 + 0.004 * (Ac - (2 * Ac + s.foldl (fun acc e => acc + e) 0) / 10) *
        Real.exp (-0.014 * max 0 (max 0 (z.getD 10) - 10))) := by
  simp only [computeCore]
  split_ifs with h
  · exact (max_eq_left h.le).symm
  · exact (max_eq_right (not_lt.mp h)).symm

/-- The mean elevation field of the numeric core. -/
theorem computeCore_Am (Ac : ℝ) (s : List ℝ) (z : Option ℝ) :
    (computeCore Ac s z).Am = (2 * Ac + s.foldl (fun acc e => acc + e) 0) / 10 := rfl

/-- The numeric core never produces a factor below one. -/
theorem computeCore_one_le (Ac : ℝ) (s : List ℝ) (z : Option ℝ) :
    1 ≤ (computeCore Ac s z).c0 := by
  rw [computeCore_c0_eq]
  exact le_max_left _ _

/-- Evaluation of the numeric core on the worked scenario of the spec. -/
theorem computeCore_concrete :
    computeCore 200 [100, 100, 100, 100, 100, 100, 100, 100] (Option.some 10) =
      ⟨1.32, 200, 120⟩ := by
  unfold computeCore
  norm_num [List.foldl, Real.exp_zero]

/-- Claim C1: the orography computation produces
`Am = (2*Ac + sum of the eight ring elevations) / 10` and the floored
`raw_factor = 1 + 0.004*(Ac - Am)*exp(-0.014*max(0, z-10))` with
`z = max(0, h)`; for `Ac = 200`, ring sum `800` and `h = 10` the result is
`Am = 120`, attenuation `1`, factor `1.32`, advisory STEEP (both the legacy
classifier and the complex-path warning flag it as steep). -/
theorem C1_formula_and_scenario :
    (∀ (Ac e1 e2 e3 e4 e5 e6 e7 e8 h : ℝ),
      (computeCore Ac [e1, e2, e3, e4, e5, e6, e7, e8] (Option.some h)).Am =
        (2 * Ac + (e1 + e2 + e3 + e4 + e5 + e6 + e7 + e8)) / 10 ∧
      (computeCore Ac [e1, e2, e3, e4, e5, e6, e7, e8] (Option.some h)).c0 =
        max 1 (1 + 0.004 *
          (Ac - (2 * Ac + (e1 + e2 + e3 + e4 + e5 + e6 + e7 + e8)) / 10) *
          Real.exp (-0.014 * max 0 (max 0 h - 10)))) ∧
    (computeCore 200 [100, 100, 100, 100, 100, 100, 100, 100] (Option.some 10) =
        ⟨1.32, 200, 120⟩ ∧
      Real.exp (-0.014 * max 0 (max 0 (10 : ℝ) - 10)) = 1 ∧
      classify 1.32 = Advisory.STEEP ∧
      complexWarning 1.32 = true) := by
  constructor
  · intro Ac e1 e2 e3 e4 e5 e6 e7 e8 h
    constructor
    · rw [computeCore_Am]
      simp [List.foldl]
    · rw [computeCore_c0_eq]
      simp only [Option.getD_some]
      congr 1
      simp [List.foldl]
  · refine ⟨computeCore_concrete, by norm_num [Real.exp_zero], ?_, ?_⟩
    · unfold classify
      norm_num
    · unfold complexWarning
      norm_num

/-- Claim C2: for every input the factor returned by the computation is at
least 1.0, and equals `max(1.0, raw_factor)`; at pipeline level every
successful `computeOrographyFactorComplex` result carries `c0 ≥ 1`. -/
theorem C2_factor_floored_at_one :
    (∀ (Ac : ℝ) (s : List ℝ) (z : Option ℝ),
      1 ≤ (computeCore Ac s z).c0 ∧
      (computeCore Ac s z).c0 =
        max 1 (1 + 0.004 * (Ac - (computeCore Ac s z).Am) *
          Real.exp (-0.014 * max 0 (max 0 (z.getD 10) - 10)))) ∧
    (∀ (lon lat : ℝ) (z : Option ℝ) (resp : List (Option ℝ)) (r : OrographyResult),
      computeOrographyFactorComplex lon lat z resp = Except.ok r → 1 ≤ r.c0) := by
  constructor
  · intro Ac s z
    refine ⟨computeCore_one_le Ac s z, ?_⟩
    rw [computeCore_c0_eq, computeCore_Am]
  · intro lon lat z resp r h
    rcases resp with _ | ⟨a, rest⟩
    · simp only [computeOrographyFactorComplex] at h
      split at h <;> exact Except.noConfusion h
    · rcases a with _ | Ac
      · simp only [computeOrographyFactorComplex] at h
        split at h <;> exact Except.noConfusion h
      · simp only [computeOrographyFactorComplex] at h
        split at h
        · split at h
          · exact Except.noConfusion h
          · rw [Except.ok.injEq] at h
            rw [← h]
            exact computeCore_one_le _ _ _
        · exact Except.noConfusion h

/-- Claim C7: a negative reference height is rejected by the `run()` guard
before any factor is computed, and the numeric core normalizes any negative
height to `z = max(0, h) = 0`, so a negative height value never reaches the
attenuation formula. -/
theorem C7_negative_reference_height :
    (∀ z : ℝ, z < 0 →
      runZRefGuard (Option.some z) =
        Except.error "Reference height z must be a non-negative number.") ∧
    (∀ (Ac : ℝ) (s : List ℝ) (z : ℝ), z < 0 →
      computeCore Ac s (Option.some z) = computeCore Ac s (Option.some 0)) := by
  constructor
  · intro z hz
    simp only [runZRefGuard]
    rw [if_pos hz]
  · intro Ac s z hz
    simp only [computeCore, Option.getD_some]
    rw [max_eq_left hz.le, max_eq_left le_rfl]

/-- Witness for C7 at the scenario height `-5` from the spec. -/
theorem C7_witness :
    ((-5 : ℝ) < 0) ∧
    runZRefGuard (Option.some (-5)) =
      Except.error "Reference height z must be a non-negative number." ∧
    computeCore 100 [1, 2] (Option.some (-5)) = computeCore 100 [1, 2] (Option.some 0) :=
  ⟨by norm_num, C7_negative_reference_height.1 (-5) (by norm_num),
    C7_negative_reference_height.2 100 [1, 2] (-5) (by norm_num)⟩

/-- Claim C9: the planar-system heuristic picks Lambert 72 (EPSG:31370,
the system with the 5 400 088 m false northing) exactly when the northing
exceeds 2 000 000, and Lambert 2008 (EPSG:3812) otherwise. -/
theorem C9_detect_lambert_crs (n : ℝ) :
    (detectLambertCrs (Option.some n) = "EPSG:31370" ↔ 2000000 < n) ∧
    (detectLambertCrs (Option.some n) = "EPSG:3812" ↔ ¬ 2000000 < n) := by
  have hne : ("EPSG:31370" : String) ≠ "EPSG:3812" := by decide
  simp only [detectLambertCrs]
  split_ifs with h
  · exact ⟨⟨fun _ => h, fun _ => rfl⟩,
      ⟨fun he => absurd he hne, fun hn => absurd h hn⟩⟩
  · exact ⟨⟨fun he => absurd he.symm hne, fun hlt => absurd hlt h⟩,
      ⟨fun _ => h, fun _ => rfl⟩⟩

/-- Evaluation of the full complex pipeline on the worked scenario:
center 200 m, eight ring samples of 100 m, reference height 10 m. -/
theorem pipeline_ok_concrete :
    computeOrographyFactorComplex 0 0 (Option.some 10)
        [Option.some 200, Option.some 100, Option.some 100, Option.some 100,
          Option.some 100, Option.some 100, Option.some 100, Option.some 100,
          Option.some 100] =
      Except.ok ⟨1.32, 200, 120, buildPoints 0 0,
        [Option.some 200, Option.some 100, Option.some 100, Option.some 100,
          Option.some 100, Option.some 100, Option.some 100, Option.some 100,
          Option.some 100]⟩ := by
  simp only [computeOrographyFactorComplex]
  rw [if_pos (by simp [buildPoints_length])]
  rw [if_neg (by simp)]
  simp only [List.filterMap_cons, id, List.filterMap_nil]
  rw [computeCore_concrete]

/-- Witness for C2: on the worked scenario the pipeline succeeds and the
returned factor 1.32 is at least 1. -/
theorem C2_witness :
    computeOrographyFactorComplex 0 0 (Option.some 10)
        [Option.some 200, Option.some 100, Option.some 100, Option.some 100,
          Option.some 100, Option.some 100, Option.some 100, Option.some 100,
          Option.some 100] =
      Except.ok ⟨1.32, 200, 120, buildPoints 0 0,
        [Option.some 200, Option.some 100, Option.some 100, Option.some 100,
          Option.some 100, Option.some 100, Option.some 100, Option.some 100,
          Option.some 100]⟩ ∧
    1 ≤ (⟨1.32, 200, 120, buildPoints 0 0,
        [Option.some 200, Option.some 100, Option.some 100, Option.some 100,
          Option.some 100, Option.some 100, Option.some 100, Option.some 100,
          Option.some 100]⟩ : OrographyResult).c0 :=
  ⟨pipeline_ok_concrete,
    C2_factor_floored_at_one.2 0 0 (Option.some 10) _ _ pipeline_ok_concrete⟩

/-- Claim C10: the legacy path never validates the tower height — with a
height that parses as `NaN` the computation still succeeds, behaves exactly
as with height 10 (attenuation `exp(-0.014*(10-10)) = 1`), and the produced
factor is the ceil-rounded `1 + 0.004*(Ac - Am)` with no attenuation. -/
theorem C10_legacy_height_not_validated
    (elev n05 n1 s05 s1 e05 e1 w05 w1 : ℝ) :
    calculateTotalElevation (Option.some elev) (Option.some n05) (Option.some n1)
        (Option.some s05) (Option.some s1) (Option.some e05) (Option.some e1)
        (Option.some w05) (Option.some w1) Option.none =
      calculateTotalElevation (Option.some elev) (Option.some n05) (Option.some n1)
        (Option.some s05) (Option.some s1) (Option.some e05) (Option.some e1)
        (Option.some w05) (Option.some w1) (Option.some 10) ∧
    calculateTotalElevation (Option.some elev) (Option.some n05) (Option.some n1)
        (Option.some s05) (Option.some s1) (Option.some e05) (Option.some e1)
        (Option.some w05) (Option.some w1) Option.none =
      Option.some
        ⟨(⌈(1 + 0.004 * (elev - 1 / 10 * (2 * elev + (n1 + s1 + e1 + w1) +
              (n05 + s05 + e05 + w05)))) * 100⌉ : ℝ) / 100,
          classify ((⌈(1 + 0.004 * (elev - 1 / 10 * (2 * elev + (n1 + s1 + e1 + w1) +
              (n05 + s05 + e05 + w05)))) * 100⌉ : ℝ) / 100)⟩ := by
  constructor
  · simp only [calculateTotalElevation]
    rw [if_neg (by norm_num : ¬ (10 : ℝ) > 10)]
  · simp only [calculateTotalElevation]
    norm_num [Real.exp_zero]

/-- Shared evaluation of the legacy path on a basin-shaped input: center
elevation 0, all eight ring elevations 100, tower height 10. The raw factor
is `1 + 0.004*(0 - 80) = 0.68`; rounding up to two decimals leaves `0.68`,
classified FLAT. -/
theorem legacy_concrete_eval :
    calculateTotalElevation (Option.some 0) (Option.some 100) (Option.some 100)
        (Option.some 100) (Option.some 100) (Option.some 100) (Option.some 100)
        (Option.some 100) (Option.some 100) (Option.some 10) =
      Option.some ⟨0.68, Advisory.FLAT⟩ := by
  simp only [calculateTotalElevation]
  rw [if_neg (by norm_num : ¬ (10 : ℝ) > 10)]
  have h68 : ((1 : ℝ) + 0.004 * ((0 : ℝ) - 1 / 10 * (2 * 0 + (100 + 100 + 100 + 100) +
      (100 + 100 + 100 + 100))) * Real.exp (-0.014 * ((10 : ℝ) - 10))) * 100 = 68 := by
    norm_num [Real.exp_zero]
  rw [h68]
  have hc : (⌈(68 : ℝ)⌉ : ℝ) = 68 := by
    rw [Int.ceil_ofNat]
    norm_num
  rw [hc]
  have hcl : classify ((68 : ℝ) / 100) = Advisory.FLAT := by
    simp only [classify]
    rw [if_pos (by norm_num : (68 : ℝ) / 100 ≤ 1.0)]
  rw [hcl]
  norm_num

/-- Counterexample to C3 as stated: the legacy computation applies no floor
at 1.0 — on a basin-shaped site it produces and displays the factor 0.68,
strictly below 1. -/
theorem C3_counterexample_no_floor :
    calculateTotalElevation (Option.some 0) (Option.some 100) (Option.some 100)
        (Option.some 100) (Option.some 100) (Option.some 100) (Option.some 100)
        (Option.some 100) (Option.some 100) (Option.some 10) =
      Option.some ⟨0.68, Advisory.FLAT⟩ ∧
    (0.68 : ℝ) < 1 :=
  ⟨legacy_concrete_eval, by norm_num⟩

/-- Claim C3 (amended): no single floor-then-round order exists, but the
classification itself is the claimed partition: the legacy `if` chain maps
every factor value to FLAT iff `f ≤ 1`, TRANSITIONAL iff `1 < f ≤ 1.15`,
STEEP iff `f > 1.15` (the final empty-comment branch is unreachable); the
legacy path classifies the rounded value it displays; and the complex path
flags steep terrain exactly when its floored, unrounded factor exceeds
1.15. -/
theorem C3_amended_order_and_partition :
    (∀ f : ℝ,
      (classify f = Advisory.FLAT ↔ f ≤ 1) ∧
      (classify f = Advisory.TRANSITIONAL ↔ 1 < f ∧ f ≤ 1.15) ∧
      (classify f = Advisory.STEEP ↔ 1.15 < f) ∧
      classify f ≠ Advisory.NONE) ∧
    (∀ (elev n05 n1 s05 s1 e05 e1 w05 w1 : ℝ) (th : Option ℝ) (r : LegacyResult),
      calculateTotalElevation (Option.some elev) (Option.some n05) (Option.some n1)
          (Option.some s05) (Option.some s1) (Option.some e05) (Option.some e1)
          (Option.some w05) (Option.some w1) th = Option.some r →
      r.comment = classify r.factor) ∧
    (∀ c0 : ℝ, complexWarning c0 = true ↔ 1.15 < c0) := by
  refine ⟨?_, ?_, ?_⟩
  · intro f
    simp only [classify]
    split_ifs with h1 h2 h3
    · norm_num at h1
      refine ⟨by simp [h1], ?_, ?_, by decide⟩
      · rw [false_iff]
        rintro ⟨hf, -⟩
        linarith
      · rw [false_iff]
        intro hs
        linarith
    · norm_num at h1
      refine ⟨?_, ?_, by simp [h2], by decide⟩
      · rw [false_iff]
        intro hf
        linarith
      · rw [false_iff]
        rintro ⟨-, hb⟩
        exact absurd h2 (not_lt.mpr hb)
    · norm_num at h1
      obtain ⟨h3a, h3b⟩ := h3
      norm_num at h3a
      refine ⟨?_, ⟨fun _ => ⟨h3a, h3b⟩, fun _ => rfl⟩, ?_, by decide⟩
      · rw [false_iff]
        intro hf
        linarith
      · rw [false_iff]
        exact h2
    · exfalso
      apply h3
      constructor
      · norm_num at h1 ⊢
        exact h1
      · rw [not_lt] at h2
        exact h2
  · intro elev n05 n1 s05 s1 e05 e1 w05 w1 th r h
    simp only [calculateTotalElevation, Option.some.injEq] at h
    rw [← h]
  · intro c0
    simp only [complexWarning]
    split_ifs with h
    · simp [h]
    · simp [h]

/-- Witness for C3: the amended classification agreement, applied at the
concrete basin-shaped legacy run. -/
theorem C3_witness :
    calculateTotalElevation (Option.some 0) (Option.some 100) (Option.some 100)
        (Option.some 100) (Option.some 100) (Option.some 100) (Option.some 100)
        (Option.some 100) (Option.some 100) (Option.some 10) =
      Option.some ⟨0.68, Advisory.FLAT⟩ ∧
    (⟨0.68, Advisory.FLAT⟩ : LegacyResult).comment =
      classify (⟨0.68, Advisory.FLAT⟩ : LegacyResult).factor :=
  ⟨legacy_concrete_eval,
    C3_amended_order_and_partition.2.1 0 100 100 100 100 100 100 100 100
      (Option.some 10) ⟨0.68, Advisory.FLAT⟩ legacy_concrete_eval⟩

/-- Claim C4: for every origin the sample plan is exactly the 9 points
CENTER, N-500, N-1000, E-500, E-1000, S-500, S-1000, W-500, W-1000, in that
order, with the center at distance 0 and no bearing, bearings N=0, E=90,
S=180, W=270, and every ring location computed by the great-circle
destination function at 500 m or 1000 m. -/
theorem C4_sample_plan (lat lon : ℝ) :
    buildPoints lat lon =
      [⟨"CENTER", lat, lon, 0, Option.none⟩,
       ⟨"N", (destinationPoint lat lon 500 0).lat,
         (destinationPoint lat lon 500 0).lon, 500, Option.some 0⟩,
       ⟨"N", (destinationPoint lat lon 1000 0).lat,
         (destinationPoint lat lon 1000 0).lon, 1000, Option.some 0⟩,
       ⟨"E", (destinationPoint lat lon 500 90).lat,
         (destinationPoint lat lon 500 90).lon, 500, Option.some 90⟩,
       ⟨"E", (destinationPoint lat lon 1000 90).lat,
         (destinationPoint lat lon 1000 90).lon, 1000, Option.some 90⟩,
       ⟨"S", (destinationPoint lat lon 500 180).lat,
         (destinationPoint lat lon 500 180).lon, 500, Option.some 180⟩,
       ⟨"S", (destinationPoint lat lon 1000 180).lat,
         (destinationPoint lat lon 1000 180).lon, 1000, Option.some 180⟩,
       ⟨"W", (destinationPoint lat lon 500 270).lat,
         (destinationPoint lat lon 500 270).lon, 500, Option.some 270⟩,
       ⟨"W", (destinationPoint lat lon 1000 270).lat,
         (destinationPoint lat lon 1000 270).lon, 1000, Option.some 270⟩] ∧
    (buildPoints lat lon).length = 9 :=
  ⟨rfl, buildPoints_length lat lon⟩

/-- Claim C5: the complex computation fails as a whole — producing an error
and no `OrographyResult` — when the elevation response length mismatches the
request, when the center elevation (index 0) is unavailable, or when any of
the eight ring elevations (indices 1..8) is unavailable. -/
theorem C5_missing_elevation_fails
    (lon lat : ℝ) (z : Option ℝ) (resp : List (Option ℝ)) :
    (resp.length ≠ 9 →
      computeOrographyFactorComplex lon lat z resp =
        Except.error "Unexpected elevation response.") ∧
    (∀ rest : List (Option ℝ), resp = Option.none :: rest → rest.length = 8 →
      computeOrographyFactorComplex lon lat z resp =
        Except.error "Could not determine site elevation.") ∧
    (∀ (Ac : ℝ) (rest : List (Option ℝ)), resp = Option.some Ac :: rest →
      rest.length = 8 → Option.none ∈ rest →
      computeOrographyFactorComplex lon lat z resp =
        Except.error "Could not determine all sampled elevations.") := by
  refine ⟨?_, ?_, ?_⟩
  · intro hlen
    simp only [computeOrographyFactorComplex, buildPoints_length]
    rw [if_neg hlen]
  · intro rest hresp hlen
    subst hresp
    simp only [computeOrographyFactorComplex, buildPoints_length]
    rw [if_pos (by simp [hlen])]
  · intro Ac rest hresp hlen hmem
    subst hresp
    simp only [computeOrographyFactorComplex, buildPoints_length]
    rw [if_pos (by simp [hlen])]
    rw [if_pos (List.any_eq_true.mpr ⟨Option.none, hmem, rfl⟩)]

/-- Witness for C5: an empty response, a response with a missing center, and
a response with a missing ring sample each abort the computation with the
corresponding error. -/
theorem C5_witness :
    (([] : List (Option ℝ)).length ≠ 9 ∧
      computeOrographyFactorComplex 0 0 Option.none [] =
        Except.error "Unexpected elevation response.") ∧
    computeOrographyFactorComplex 0 0 Option.none
        [Option.none, Option.some 1, Option.some 1, Option.some 1, Option.some 1,
          Option.some 1, Option.some 1, Option.some 1, Option.some 1] =
      Except.error "Could not determine site elevation." ∧
    computeOrographyFactorComplex 0 0 Option.none
        [Option.some 5, Option.none, Option.some 1, Option.some 1, Option.some 1,
          Option.some 1, Option.some 1, Option.some 1, Option.some 1] =
      Except.error "Could not determine all sampled elevations." :=
  ⟨⟨by simp, (C5_missing_elevation_fails 0 0 Option.none []).1 (by simp)⟩,
    (C5_missing_elevation_fails 0 0 Option.none _).2.1
      [Option.some 1, Option.some 1, Option.some 1, Option.some 1,
        Option.some 1, Option.some 1, Option.some 1, Option.some 1] rfl (by simp),
    (C5_missing_elevation_fails 0 0 Option.none _).2.2 5
      [Option.none, Option.some 1, Option.some 1, Option.some 1,
        Option.some 1, Option.some 1, Option.some 1, Option.some 1] rfl (by simp)
      (by simp)⟩

/-- The atan2 model is zero on the nonnegative real axis. -/
theorem atan2_zero_of_nonneg (x : ℝ) (hx : 0 ≤ x) : atan2 0 x = 0 := by
  simp only [atan2]
  split_ifs <;> first | linarith | simp [zero_div, Real.arctan_zero]

/-- The atan2 model stays within `[-pi, pi]`. -/
theorem atan2_bounds (y x : ℝ) :
    -Real.pi ≤ atan2 y x ∧ atan2 y x ≤ Real.pi := by
  have hpi := Real.pi_pos
  have hlt := Real.arctan_lt_pi_div_two (y / x)
  have hgt := Real.neg_pi_div_two_lt_arctan (y / x)
  simp only [atan2]
  split_ifs with h1 h2 h3 h4 h5
  · constructor <;> linarith
  · have hnp : Real.arctan (y / x) ≤ 0 := by
      have hq : y / x ≤ 0 := div_nonpos_iff.mpr (Or.inl ⟨h3, h2.le⟩)
      have := Real.arctan_strictMono.monotone hq
      rwa [Real.arctan_zero] at this
    constructor <;> linarith
  · have hnn : 0 ≤ Real.arctan (y / x) := by
      have hq : 0 ≤ y / x := by
        have : 0 < y / x := div_pos_iff.mpr (Or.inr ⟨not_le.mp h3, h2⟩)
        exact this.le
      have := Real.arctan_strictMono.monotone hq
      rwa [Real.arctan_zero] at this
    constructor <;> linarith
  · constructor <;> linarith
  · constructor <;> linarith
  · constructor <;> linarith

/-- The JavaScript remainder of a nonnegative dividend by a positive divisor
lies in `[0, b)`. -/
theorem jsRem_nonneg_lt (a b : ℝ) (ha : 0 ≤ a) (hb : 0 < b) :
    0 ≤ jsRem a b ∧ jsRem a b < b := by
  have hq : 0 ≤ a / b := div_nonneg ha hb.le
  have h1 : ((⌊a / b⌋ : ℤ) : ℝ) ≤ a / b := Int.floor_le _
  have h2 : a / b < (⌊a / b⌋ : ℤ) + 1 := Int.lt_floor_add_one _
  have hba : b * (a / b) = a := by field_simp
  simp only [jsRem, if_pos hq]
  constructor
  · have := mul_le_mul_of_nonneg_left h1 hb.le
    rw [hba] at this
    linarith
  · have := mul_lt_mul_of_pos_left h2 hb
    rw [hba] at this
    nlinarith

/-- Bounds of the normalized output longitude for a raw radian longitude
`L + A` with both parts in `[-pi, pi]`. -/
theorem lonOut_bounds (L A : ℝ) (hL1 : -Real.pi ≤ L) (hL2 : L ≤ Real.pi)
    (hA1 : -Real.pi ≤ A) (hA2 : A ≤ Real.pi) :
    -180 ≤ jsRem ((L + A) * 180 / Real.pi + 540) 360 - 180 ∧
    jsRem ((L + A) * 180 / Real.pi + 540) 360 - 180 ≤ 180 := by
  have hpi := Real.pi_pos
  have hdeg1 : -360 ≤ (L + A) * 180 / Real.pi := by
    rw [le_div_iff hpi]
    nlinarith
  have hdeg2 : (L + A) * 180 / Real.pi ≤ 360 := by
    rw [div_le_iff hpi]
    nlinarith
  obtain ⟨hr1, hr2⟩ := jsRem_nonneg_lt ((L + A) * 180 / Real.pi + 540) 360
    (by linarith) (by norm_num)
  constructor <;> linarith

/-- Claim C8: for every valid origin, nonnegative distance and any bearing,
the output longitude of `destinationPoint` is normalized into
`[-180, 180]`. -/
theorem C8_lon_normalized (lat lon d b : ℝ)
    (hlat1 : -90 ≤ lat) (hlat2 : lat ≤ 90)
    (hlon1 : -180 ≤ lon) (hlon2 : lon ≤ 180) (hd : 0 ≤ d) :
    -180 ≤ (destinationPoint lat lon d b).lon ∧
    (destinationPoint lat lon d b).lon ≤ 180 := by
  have hpi := Real.pi_pos
  simp only [destinationPoint, degToRad, radToDeg]
  refine lonOut_bounds _ _ ?_ ?_ (atan2_bounds _ _).1 (atan2_bounds _ _).2
  · have := mul_le_mul_of_nonneg_right hlon1 hpi.le
    rw [neg_mul] at this
    linarith
  · have := mul_le_mul_of_nonneg_right hlon2 hpi.le
    linarith

/-- Witness for C8 at the origin point with zero distance and bearing. -/
theorem C8_witness :
    ((-90 : ℝ) ≤ 0 ∧ (0 : ℝ) ≤ 90 ∧ (-180 : ℝ) ≤ 0 ∧ (0 : ℝ) ≤ 180 ∧ (0 : ℝ) ≤ 0) ∧
    -180 ≤ (destinationPoint 0 0 0 0).lon ∧ (destinationPoint 0 0 0 0).lon ≤ 180 :=
  ⟨⟨by norm_num, by norm_num, by norm_num, by norm_num, le_refl 0⟩,
    C8_lon_normalized 0 0 0 0 (by norm_num) (by norm_num) (by norm_num)
      (by norm_num) (le_refl 0)⟩

/-- Claim C6 (amended): zero distance is an exact fixed point of
`destinationPoint` for every valid origin whose longitude is in the
half-open interval `[-180, 180)`; at `lon = 180` the normalization maps the
unchanged longitude to `-180` (see the counterexample). -/
theorem C6_amended_zero_distance (lat lon b : ℝ)
    (hlat1 : -90 ≤ lat) (hlat2 : lat ≤ 90)
    (hlon1 : -180 ≤ lon) (hlon2 : lon < 180) :
    destinationPoint lat lon 0 b = ⟨lat, lon⟩ := by
  have hpi := Real.pi_pos
  have harc : Real.arcsin (Real.sin (lat * Real.pi / 180)) = lat * Real.pi / 180 := by
    apply Real.arcsin_sin
    · linarith [mul_le_mul_of_nonneg_right hlat1 hpi.le]
    · linarith [mul_le_mul_of_nonneg_right hlat2 hpi.le]
  simp only [destinationPoint, degToRad, radToDeg, zero_div, Real.sin_zero,
    Real.cos_zero, mul_one, mul_zero, zero_mul, add_zero]
  rw [harc]
  have hx : (0 : ℝ) ≤ 1 - Real.sin (lat * Real.pi / 180) * Real.sin (lat * Real.pi / 180) := by
    nlinarith [Real.sin_le_one (lat * Real.pi / 180),
      Real.neg_one_le_sin (lat * Real.pi / 180)]
  rw [atan2_zero_of_nonneg _ hx, add_zero]
  have hdeg : ∀ t : ℝ, t * Real.pi / 180 * 180 / Real.pi = t := by
    intro t
    field_simp
  rw [hdeg, hdeg]
  have hq : (0 : ℝ) ≤ (lon + 540) / 360 := div_nonneg (by linarith) (by norm_num)
  have hfloor : ⌊(lon + 540) / 360⌋ = 1 := by
    rw [Int.floor_eq_iff]
    constructor
    · push_cast
      rw [le_div_iff (by norm_num : (0 : ℝ) < 360)]
      linarith
    · push_cast
      rw [div_lt_iff (by norm_num : (0 : ℝ) < 360)]
      linarith
  simp only [jsRem, if_pos hq, hfloor, GeoPoint.mk.injEq]
  refine ⟨trivial, ?_⟩
  push_cast
  ring

/-- Counterexample to C6 as stated: the origin `(lat 0, lon 180)` is a valid
GeoPoint, yet the zero-distance destination has longitude `-180`, which is
360 degrees away from the origin longitude — far beyond the 1e-9
tolerance. -/
theorem C6_counterexample_lon_180 :
    ((-180 : ℝ) ≤ 180 ∧ (180 : ℝ) ≤ 180 ∧ (-90 : ℝ) ≤ 0 ∧ (0 : ℝ) ≤ 90) ∧
    (destinationPoint 0 180 0 0).lon = -180 ∧
    ¬ |(destinationPoint 0 180 0 0).lon - 180| ≤ 1e-9 := by
  have hpi := Real.pi_pos
  have hlon : (destinationPoint 0 180 0 0).lon = -180 := by
    simp only [destinationPoint, degToRad, radToDeg, zero_div, zero_mul,
      Real.sin_zero, Real.cos_zero, mul_one, mul_zero, add_zero, sub_zero,
      Real.arcsin_zero]
    rw [atan2_zero_of_nonneg 1 (by norm_num), add_zero]
    have h180 : (180 : ℝ) * Real.pi / 180 * 180 / Real.pi = 180 := by
      field_simp
    rw [h180]
    have hq : (0 : ℝ) ≤ ((180 : ℝ) + 540) / 360 := by norm_num
    have hfl : ⌊((180 : ℝ) + 540) / 360⌋ = 2 := by
      rw [Int.floor_eq_iff]
      constructor
      · push_cast
        norm_num
      · push_cast
        norm_num
    simp only [jsRem, if_pos hq, hfl]
    norm_num
  refine ⟨⟨by norm_num, le_refl _, by norm_num, by norm_num⟩, hlon, ?_⟩
  rw [hlon]
  rw [abs_le]
  push_neg
  intro h
  norm_num at h

/-- Witness for C6 (amended) at the origin with bearing 37. -/
theorem C6_witness :
    ((-90 : ℝ) ≤ 0 ∧ (0 : ℝ) ≤ 90 ∧ (-180 : ℝ) ≤ 0 ∧ (0 : ℝ) < 180) ∧
    destinationPoint 0 0 0 37 = ⟨0, 0⟩ :=
  ⟨⟨by norm_num, by norm_num, by norm_num, by norm_num⟩,
    C6_amended_zero_distance 0 0 37 (by norm_num) (by norm_num) (by norm_num)
      (by norm_num)⟩
